import Mathlib

/-!
Shallow embedding of `vlanCounters.py`, an SNMP pass-persist extension that
republishes EOS hardware VLAN counters.

The embedding covers:
* the static configuration constants and the `OID_TRANSLATION` table;
* the `update` function (the Counter Publisher tick): the sequence of
  `pp.add_str` / `pp.add_int` sink writes it performs on a given per-VLAN
  counter snapshot, together with the first Python exception it raises, if any;
* the `__main__` supervisor loop: its reaction to each kind of event surfaced
  by one invocation of the serve loop (`pp.start`), including the resolution
  of the name `errno` in the module namespace.

External collaborators (`snmp_passpersist`, `jsonrpclib`) are black boxes:
the serve loop is modelled as a stream of surfaced events, and the sink as
the list of write operations issued against it.
-/

namespace VlanCounters

/-! ## Configuration constants (source lines 76-98) -/

def OID_BASE : String := ".1.3.6.1.3.53.9"

def POLLING_INTERVAL : Nat := 30

/-- Number of SNMP pass_persist update tries (`MAX_RETRY = 10`). -/
def MAX_RETRY : Nat := 10

/-- `OID_TRANSLATION` dict from source lines 86-94, as a partial map:
a Python dict lookup on a missing key raises `KeyError`, embedded as `none`.
Note the source assigns 5 to both `inBcastPkts` and `inMcastPkts`, and 6 to
both `outBcastPkts` and `outMcastPkts`. -/
def OID_TRANSLATION : String → Option Nat
  | "inUcastPkts" => some 1
  | "outUcastPkts" => some 2
  | "inOctets" => some 3
  | "outOctets" => some 4
  | "inBcastPkts" => some 5
  | "outBcastPkts" => some 6
  | "inMcastPkts" => some 5
  | "outMcastPkts" => some 6
  | _ => none

/-- `OID_DESCRIPTION = '.0.'` (source line 97). -/
def OID_DESCRIPTION : String := ".0."

/-- `OID_VALUE = '.1.'` (source line 98). -/
def OID_VALUE : String := ".1."

/-! ## The Counter Publisher (`update`, source lines 122-155) -/

/-- One write operation issued against the pass-persist sink:
`pp.add_str oid value` or `pp.add_int oid value label` (the source passes the
counter name as the label of each integer write). -/
inductive SinkWrite where
  | str (oid : String) (value : String)
  | int (oid : String) (value : Int) (label : String)
deriving DecidableEq, Repr

/-- A Python exception raised inside `update`:
`KeyError` from `OID_TRANSLATION[counter]` on a missing counter name, or
`ValueError` from `int(counters[counter])` on a non-numeric value. -/
inductive PyErr where
  | keyError (name : String)
  | valueError (value : String)
deriving DecidableEq, Repr

/-- The per-VLAN counter map extracted by `update` from the eAPI response
(`eos_data[0]` with key `vlanCountersInfo`): an association list from VLAN id
(a string key of the JSON object) to an association list from counter name to
counter value (a decimal string), in iteration order. -/
abbrev Snapshot := List (String × List (String × String))

/-- OID of the description write for one counter (source lines 150-151):
`'0.' + str(vlan) + OID_DESCRIPTION + str(OID_TRANSLATION[counter])`. -/
def descOid (vlan : String) (suffix : Nat) : String :=
  "0." ++ vlan ++ OID_DESCRIPTION ++ toString suffix

/-- OID of the value write for one counter (source lines 152-154):
`'0.' + str(vlan) + OID_VALUE + str(OID_TRANSLATION[counter])`. -/
def valOid (vlan : String) (suffix : Nat) : String :=
  "0." ++ vlan ++ OID_VALUE ++ toString suffix

/-- `pp.add_str('0', "MIB updated by vlanCounters.py")` (source line 146). -/
def headerWrite : SinkWrite :=
  SinkWrite.str "0" "MIB updated by vlanCounters.py"

/-- Accumulator pass over the digits of a decimal literal: `none` as soon as
a non-digit character appears. -/
def decNatAux : List Char → Nat → Option Nat
  | [], acc => some acc
  | ch :: rest, acc =>
    if ch.isDigit then decNatAux rest (acc * 10 + (ch.toNat - 48))
    else none

/-- Embedding of `int(value)` on the string values carried by the eAPI
response (source line 153), restricted to the plain decimal literals (with an
optional leading minus sign) that occur there; any other string raises
`ValueError`. -/
def pyInt (value : String) : Option Int :=
  match value.data with
  | [] => none
  | ['-'] => none
  | '-' :: rest => (decNatAux rest 0).map (fun n => -(n : Int))
  | cs => (decNatAux cs 0).map (fun n => (n : Int))

/-- The inner loop of `update` over one VLAN's counters (source lines 149-155).
For each `(counter, value)` pair, in iteration order:
`OID_TRANSLATION[counter]` is evaluated first (raising `KeyError` before any
write for this counter if the name is missing); then the description string is
written; then `int(value)` is evaluated (raising `ValueError` after the
description write but before the value write); then the integer is written.
Returns the writes performed and the first exception raised, if any; an
exception abandons the remaining counters. -/
def vlanRun (vlan : String) : List (String × String) → List SinkWrite × Option PyErr
  | [] => ([], none)
  | (counter, value) :: rest =>
    match OID_TRANSLATION counter with
    | none => ([], some (PyErr.keyError counter))
    | some suffix =>
      match pyInt value with
      | none => ([SinkWrite.str (descOid vlan suffix) counter],
                 some (PyErr.valueError value))
      | some n =>
        let (ws, err) := vlanRun vlan rest
        (SinkWrite.str (descOid vlan suffix) counter
           :: SinkWrite.int (valOid vlan suffix) n counter :: ws, err)

/-- The outer loop of `update` over the VLANs (source line 147), threading the
writes performed so far; an exception inside one VLAN abandons the remaining
VLANs. -/
def snapRun : Snapshot → List SinkWrite × Option PyErr
  | [] => ([], none)
  | (vlan, counters) :: rest =>
    match vlanRun vlan counters with
    | (ws, some e) => (ws, some e)
    | (ws, none) =>
      let (ws2, err) := snapRun rest
      (ws ++ ws2, err)

/-- One invocation of `update` (source lines 145-155) on a snapshot: the header
write at OID `'0'` happens first, then the per-VLAN loop runs. The result is
the full ordered list of sink writes performed during the tick and the first
exception raised, if any. -/
def updateRun (snap : Snapshot) : List SinkWrite × Option PyErr :=
  let (ws, err) := snapRun snap
  (headerWrite :: ws, err)

/-- A `(counter, value)` pair on which the body of the inner loop completes
without an exception: the name has a table entry and the value parses. -/
def resolvable (p : String × String) : Bool :=
  (OID_TRANSLATION p.1).isSome && (pyInt p.2).isSome

/-- The pair of writes `update` performs for one counter of one VLAN, in
order: the description string write, then the integer value write. -/
def vlanPairWrites (vlan : String) : List (String × String) → List SinkWrite
  | [] => []
  | (counter, value) :: rest =>
    SinkWrite.str (descOid vlan ((OID_TRANSLATION counter).getD 0)) counter
      :: SinkWrite.int (valOid vlan ((OID_TRANSLATION counter).getD 0))
           ((pyInt value).getD 0) counter
      :: vlanPairWrites vlan rest

/-- All per-counter writes of a tick, VLAN by VLAN in iteration order. -/
def pairWrites : Snapshot → List SinkWrite
  | [] => []
  | (vlan, counters) :: rest => vlanPairWrites vlan counters ++ pairWrites rest

/-- The `(vlan, counter)` pairs present in a snapshot, in iteration order:
the units the spec calls Published OID Entries under the split convention. -/
def countersOf : Snapshot → List (String × String)
  | [] => []
  | (vlan, counters) :: rest =>
    counters.map (fun p => (vlan, p.1)) ++ countersOf rest

/-! ## The Supervisor (`__main__`, source lines 158-183) -/

/-- The module-level names bound by the program before the `except` handlers
run: the three `import` bindings (source lines 71-73 bind `sys`, `snmp` and
`Server`), the configuration constants, the two functions, and the names bound
inside `__main__`. The name `errno` is never bound: no `import errno` exists. -/
def boundNames : List String :=
  ["sys", "snmp", "Server",
   "OID_BASE", "POLLING_INTERVAL", "MAX_RETRY", "DEBUG",
   "OID_TRANSLATION", "OID_DESCRIPTION", "OID_VALUE",
   "run_cmd", "update", "retry_counter", "pp", "e"]

/-- Python name resolution for a global name used in `__main__`. -/
def nameInScope (n : String) : Bool := boundNames.contains n

/-- `errno.EPIPE` on Linux. Only relevant to the branch the `IOError` handler
would take if the name `errno` resolved. -/
def EPIPE : Nat := 32

/-- The Python 2 message of the `NameError` raised when the unbound global
`errno` is evaluated (source line 171). -/
def nameErrorMsg : String := "NameError: global name errno is not defined"

/-- What one iteration of the supervisor loop does after the serve-loop call
returns control. `cont` means: fall through to `retry_counter -= 1` and loop;
`exited` means `sys.exit(code)` after printing `msg`; `crashed` means an
exception escaped the handler, aborting the interpreter (exit status 1). -/
inductive StepResult where
  | cont (logMsg : String)
  | exited (code : Nat) (msg : String)
  | crashed (msg : String)
deriving DecidableEq, Repr

/-- The ways one invocation of `pp.start` can hand control back to the
supervisor: a `KeyboardInterrupt`, an `IOError` carrying some errno, any other
exception (`except Exception`), or a plain return (the `else` branch). -/
inductive CycleEvent where
  | interrupt
  | ioError (eno : Nat)
  | genericError (msg : String)
  | cleanReturn
deriving DecidableEq, Repr

/-- The `except IOError as e` handler (source lines 170-176). Its condition
`e.errno == errno.EPIPE` first reads the attribute `e.errno` (fine) and then
resolves the global name `errno`; since that name is unbound, the comparison
raises `NameError` and neither branch of the handler runs. The branches are
kept here exactly as written, guarded by the name resolution. -/
def handleIOError (eno : Nat) : StepResult :=
  if nameInScope "errno" then
    if eno = EPIPE then
      StepResult.exited 1 "snmpd process has closed the pipe"
    else
      StepResult.exited 1 ("updater thread has died: Errno " ++ toString eno)
  else
    StepResult.crashed nameErrorMsg

/-- One iteration of the `while retry_counter > 0` body (source lines 160-181)
given the event surfaced by `pp.start`. -/
def supervisorStep : CycleEvent → StepResult
  | CycleEvent.interrupt => StepResult.exited 1 "Exiting on user request"
  | CycleEvent.ioError eno => handleIOError eno
  | CycleEvent.genericError m => StepResult.cont ("main thread has died " ++ m)
  | CycleEvent.cleanReturn =>
      StepResult.cont "updater thread has died with no information"

/-- An event on which the supervisor falls through to the decrement-and-loop
path rather than terminating. -/
def isRetryable (ev : CycleEvent) : Bool :=
  match supervisorStep ev with
  | StepResult.cont _ => true
  | _ => false

/-- How the process ends (or fails to end) when driven by a finite stream of
serve-loop events. `exhausted msg` is the fall-through past the `while` loop:
the message of source line 182 is printed and the script ends, so the
interpreter exits with status 0 (there is no `sys.exit` on that path).
`exited` is an explicit `sys.exit`; `crashed` is an uncaught exception, which
makes the interpreter exit with status 1; `stillRunning r` means the event
stream ended while the loop would block in `pp.start` again with
`retry_counter = r`. -/
inductive Outcome where
  | exhausted (msg : String)
  | exited (code : Nat) (msg : String)
  | crashed (msg : String)
  | stillRunning (retryLeft : Nat)
deriving DecidableEq, Repr

/-- The supervisor loop (source lines 159-182): with `retry_counter = r`,
consume events one per iteration; `cont` decrements the counter and loops.
When the counter reaches 0, print the line-182 message and fall off the end
of the script. -/
def runSupervisor : Nat → List CycleEvent → Outcome
  | 0, _ => Outcome.exhausted "too many retries, exiting to preserve EOS"
  | Nat.succ r, [] => Outcome.stillRunning (Nat.succ r)
  | Nat.succ r, ev :: rest =>
    match supervisorStep ev with
    | StepResult.cont _ => runSupervisor r rest
    | StepResult.exited code msg => Outcome.exited code msg
    | StepResult.crashed msg => Outcome.crashed msg

/-- The process exit status of each outcome: the CPython interpreter exits
with status 0 when the script falls off its end, with `code` on
`sys.exit(code)`, and with status 1 on an uncaught exception. -/
def exitStatus : Outcome → Option Nat
  | Outcome.exhausted _ => some 0
  | Outcome.exited code _ => some code
  | Outcome.crashed _ => some 1
  | Outcome.stillRunning _ => none

/-- How an exception raised inside `update` surfaces to the supervisor:
`KeyError` and `ValueError` are subclasses of `Exception` and not of
`IOError` or `KeyboardInterrupt`, so they arrive at the generic handler. -/
def serveEvent (e : PyErr) : CycleEvent :=
  match e with
  | PyErr.keyError n => CycleEvent.genericError ("KeyError: " ++ n)
  | PyErr.valueError v =>
      CycleEvent.genericError ("invalid literal for int(): " ++ v)

/-! ## Helper lemmas -/

theorem vlanRun_resolvable (vlan : String) (cs : List (String × String))
    (h : ∀ p ∈ cs, resolvable p = true) :
    vlanRun vlan cs = (vlanPairWrites vlan cs, none) := by
  induction cs with
  | nil => rfl
  | cons p rest ih =>
    obtain ⟨c, v⟩ := p
    have hp := h (c, v) (List.mem_cons_self _ _)
    simp only [resolvable, Bool.and_eq_true, Option.isSome_iff_exists] at hp
    obtain ⟨⟨s, hs⟩, ⟨n, hn⟩⟩ := hp
    have hrest : ∀ q ∈ rest, resolvable q = true :=
      fun q hq => h q (List.mem_cons_of_mem _ hq)
    simp [vlanRun, vlanPairWrites, hs, hn, ih hrest]

theorem vlanRun_keyError (vlan : String) (good : List (String × String))
    (c v : String) (rest : List (String × String))
    (hgood : ∀ p ∈ good, resolvable p = true)
    (hc : OID_TRANSLATION c = none) :
    vlanRun vlan (good ++ (c, v) :: rest)
      = (vlanPairWrites vlan good, some (PyErr.keyError c)) := by
  induction good with
  | nil => simp [vlanRun, hc, vlanPairWrites]
  | cons p tail ih =>
    obtain ⟨c0, v0⟩ := p
    have hp := hgood (c0, v0) (List.mem_cons_self _ _)
    simp only [resolvable, Bool.and_eq_true, Option.isSome_iff_exists] at hp
    obtain ⟨⟨s, hs⟩, ⟨n, hn⟩⟩ := hp
    have htail : ∀ q ∈ tail, resolvable q = true :=
      fun q hq => hgood q (List.mem_cons_of_mem _ hq)
    simp [vlanRun, vlanPairWrites, hs, hn, ih htail]

theorem snapRun_resolvable (snap : Snapshot)
    (h : ∀ e ∈ snap, ∀ p ∈ e.2, resolvable p = true) :
    snapRun snap = (pairWrites snap, none) := by
  induction snap with
  | nil => rfl
  | cons e rest ih =>
    obtain ⟨vlan, cs⟩ := e
    have h1 : vlanRun vlan cs = (vlanPairWrites vlan cs, none) :=
      vlanRun_resolvable vlan cs (h (vlan, cs) (List.mem_cons_self _ _))
    have hrest : ∀ q ∈ rest, ∀ p ∈ q.2, resolvable p = true :=
      fun q hq => h q (List.mem_cons_of_mem _ hq)
    simp [snapRun, h1, pairWrites, ih hrest]

theorem snapRun_append_resolvable (pre tail : Snapshot)
    (h : ∀ e ∈ pre, ∀ p ∈ e.2, resolvable p = true) :
    snapRun (pre ++ tail)
      = (pairWrites pre ++ (snapRun tail).1, (snapRun tail).2) := by
  induction pre with
  | nil => simp [pairWrites]
  | cons e rest ih =>
    obtain ⟨vlan, cs⟩ := e
    have h1 : vlanRun vlan cs = (vlanPairWrites vlan cs, none) :=
      vlanRun_resolvable vlan cs (h (vlan, cs) (List.mem_cons_self _ _))
    have hrest : ∀ q ∈ rest, ∀ p ∈ q.2, resolvable p = true :=
      fun q hq => h q (List.mem_cons_of_mem _ hq)
    simp [snapRun, h1, pairWrites, ih hrest]

theorem vlanPairWrites_length (vlan : String) (cs : List (String × String)) :
    (vlanPairWrites vlan cs).length = 2 * cs.length := by
  induction cs with
  | nil => rfl
  | cons p rest ih =>
    obtain ⟨c, v⟩ := p
    simp [vlanPairWrites, ih]
    omega

theorem pairWrites_length (snap : Snapshot) (N M : Nat)
    (hN : snap.length = N) (hM : ∀ e ∈ snap, e.2.length = M) :
    (pairWrites snap).length = 2 * (N * M) := by
  induction snap generalizing N with
  | nil => subst hN; simp [pairWrites]
  | cons e rest ih =>
    obtain ⟨vlan, cs⟩ := e
    have hcs : cs.length = M := hM (vlan, cs) (List.mem_cons_self _ _)
    have hrest : ∀ q ∈ rest, q.2.length = M :=
      fun q hq => hM q (List.mem_cons_of_mem _ hq)
    have hlen := ih rest.length rfl hrest
    simp only [pairWrites, List.length_append, vlanPairWrites_length, hcs, hlen]
    simp only [List.length_cons] at hN
    subst hN
    ring

theorem countersOf_length (snap : Snapshot) (N M : Nat)
    (hN : snap.length = N) (hM : ∀ e ∈ snap, e.2.length = M) :
    (countersOf snap).length = N * M := by
  induction snap generalizing N with
  | nil => subst hN; simp [countersOf]
  | cons e rest ih =>
    obtain ⟨vlan, cs⟩ := e
    have hcs : cs.length = M := hM (vlan, cs) (List.mem_cons_self _ _)
    have hrest : ∀ q ∈ rest, q.2.length = M :=
      fun q hq => hM q (List.mem_cons_of_mem _ hq)
    have hlen := ih rest.length rfl hrest
    simp only [countersOf, List.length_append, List.length_map, hcs, hlen]
    simp only [List.length_cons] at hN
    subst hN
    ring

theorem runSupervisor_all_retryable (evs : List CycleEvent)
    (h : ∀ e ∈ evs, isRetryable e = true) :
    runSupervisor evs.length evs
      = Outcome.exhausted "too many retries, exiting to preserve EOS" := by
  induction evs with
  | nil => rfl
  | cons e rest ih =>
    have he := h e (List.mem_cons_self _ _)
    have hrest : ∀ q ∈ rest, isRetryable q = true :=
      fun q hq => h q (List.mem_cons_of_mem _ hq)
    cases hs : supervisorStep e with
    | cont m =>
      simp [List.length_cons, runSupervisor, hs, ih hrest]
    | exited code msg => simp [isRetryable, hs] at he
    | crashed msg => simp [isRetryable, hs] at he

theorem nameInScope_errno : nameInScope "errno" = false := by decide

theorem supervisorStep_ioError (eno : Nat) :
    supervisorStep (CycleEvent.ioError eno) = StepResult.crashed nameErrorMsg := by
  simp [supervisorStep, handleIOError, nameInScope_errno]

/-! ## Claims -/

/-- Claim C1, counterexample. Ten retryable failure cycles do exhaust the
retry counter and do print the distinct line-182 message, but the script then
falls off its end with no `sys.exit`, so the interpreter exits with status 0 —
not the non-zero status the claim asserts. -/
theorem c1_counterexample :
    runSupervisor MAX_RETRY (List.replicate 10 CycleEvent.cleanReturn)
      = Outcome.exhausted "too many retries, exiting to preserve EOS"
    ∧ exitStatus (runSupervisor MAX_RETRY (List.replicate 10 CycleEvent.cleanReturn))
      = some 0 := by
  exact ⟨rfl, rfl⟩

/-- Claim C1, amended: if the retry counter reaches zero after
`MAX_RETRY = 10` failed cycles, the process terminates with the distinct
message "too many retries, exiting to preserve EOS", but it exits with
status 0 (the script falls off its end without calling `sys.exit`), not with
a non-zero status. -/
theorem c1_retry_exhaustion (evs : List CycleEvent)
    (hlen : evs.length = MAX_RETRY)
    (h : ∀ e ∈ evs, isRetryable e = true) :
    runSupervisor MAX_RETRY evs
      = Outcome.exhausted "too many retries, exiting to preserve EOS"
    ∧ exitStatus (runSupervisor MAX_RETRY evs) = some 0 := by
  have hrun := runSupervisor_all_retryable evs h
  rw [hlen] at hrun
  exact ⟨hrun, by rw [hrun]; rfl⟩

/-- Claim C1, witness: ten generic-exception cycles exhaust the budget and
the process ends with the distinct message and exit status 0. -/
theorem c1_retry_exhaustion_witness :
    (List.replicate 10 (CycleEvent.genericError "boom")).length = MAX_RETRY
    ∧ (runSupervisor MAX_RETRY (List.replicate 10 (CycleEvent.genericError "boom"))
         = Outcome.exhausted "too many retries, exiting to preserve EOS"
       ∧ exitStatus (runSupervisor MAX_RETRY
           (List.replicate 10 (CycleEvent.genericError "boom"))) = some 0) :=
  ⟨by decide, c1_retry_exhaustion _ (by decide) (by decide)⟩

/-- Claim C2, counterexample. An `IOError` with errno 111 (connection
refused — an unreachable control-plane socket) is a communication error that
is neither a user interrupt nor a broken downstream pipe, yet with the full
retry budget of 10 the supervisor does not decrement and re-enter the running
cycle (which would leave the process blocked in the next serve loop with 9
retries left): the `IOError` handler raises `NameError` on the unbound name
`errno` — and even as intended it calls `sys.exit(1)` — so the process
terminates immediately with status 1. -/
theorem c2_counterexample :
    runSupervisor MAX_RETRY [CycleEvent.ioError 111] = Outcome.crashed nameErrorMsg
    ∧ exitStatus (Outcome.crashed nameErrorMsg) = some 1
    ∧ runSupervisor MAX_RETRY [CycleEvent.ioError 111] ≠ Outcome.stillRunning 9 := by
  refine ⟨?_, rfl, ?_⟩
  · simp [runSupervisor, supervisorStep_ioError, MAX_RETRY]
  · simp [runSupervisor, supervisorStep_ioError, MAX_RETRY]

/-- Claim C2, amended: only errors that reach the generic `except Exception`
handler — any exception that is neither a `KeyboardInterrupt` nor an
`IOError` — make the Supervisor log the failure, decrement the retry counter
and re-enter the running cycle while the counter is still positive; an
`IOError` surfaced from the serve loop (for example errno 111, connection
refused), even though it is neither a user interrupt nor a broken pipe,
instead terminates the process immediately. -/
theorem c2_generic_errors_retry : ∀ (m : String) (r : Nat) (rest : List CycleEvent),
    supervisorStep (CycleEvent.genericError m)
      = StepResult.cont ("main thread has died " ++ m)
    ∧ runSupervisor (r + 1) (CycleEvent.genericError m :: rest) = runSupervisor r rest
    ∧ (∀ eno, supervisorStep (CycleEvent.ioError eno) = StepResult.crashed nameErrorMsg) := by
  intro m r rest
  exact ⟨rfl, rfl, supervisorStep_ioError⟩

/-- Claim C3: the name `errno` is bound nowhere in the program (the imports
bind only `sys`, `snmp` and `Server`), so on every `IOError` surfaced to the
handler at source lines 170-176 the comparison `e.errno == errno.EPIPE`
raises `NameError` before either branch can run: the handler never prints
"snmpd process has closed the pipe" or "updater thread has died", and never
reaches its `sys.exit(1)` calls. -/
theorem c3_errno_name_error :
    nameInScope "errno" = false
    ∧ (∀ eno, supervisorStep (CycleEvent.ioError eno) = StepResult.crashed nameErrorMsg)
    ∧ (∀ eno msg, supervisorStep (CycleEvent.ioError eno) ≠ StepResult.exited 1 msg) := by
  refine ⟨nameInScope_errno, supervisorStep_ioError, ?_⟩
  intro eno msg h
  rw [supervisorStep_ioError] at h
  exact StepResult.noConfusion h

/-- Claim C4: when the serve loop surfaces an `IOError` carrying `EPIPE`
(the SNMP daemon closed the pipe), the process terminates at once with exit
status 1: the remaining event stream and the remaining retry budget are
ignored, and the step never takes the `cont` path, which is the only path
that decrements the retry counter. (The mechanism is the handler's own
`NameError` crash rather than the intended EPIPE branch, but the observable
behaviour the claim states — immediate non-zero exit, no decrement, no
restart — holds.) -/
theorem c4_broken_pipe_fatal : ∀ (r : Nat) (rest : List CycleEvent),
    runSupervisor (r + 1) (CycleEvent.ioError EPIPE :: rest)
      = Outcome.crashed nameErrorMsg
    ∧ exitStatus (runSupervisor (r + 1) (CycleEvent.ioError EPIPE :: rest)) = some 1
    ∧ (∀ m, supervisorStep (CycleEvent.ioError EPIPE) ≠ StepResult.cont m) := by
  intro r rest
  have hstep := supervisorStep_ioError EPIPE
  have hrun : runSupervisor (r + 1) (CycleEvent.ioError EPIPE :: rest)
      = Outcome.crashed nameErrorMsg := by
    simp [runSupervisor, hstep]
  refine ⟨hrun, by rw [hrun]; rfl, ?_⟩
  intro m h
  rw [hstep] at h
  exact StepResult.noConfusion h

/-- Claim C5: on a response with N VLANs and M counters per VLAN, all of whose
names resolve in `OID_TRANSLATION` (and whose values parse), one tick of
`update` raises no exception and its writes are exactly the fixed banner
followed by `pairWrites snap` — which emits, for each of the N·M
`(VLAN, counter)` pairs of the snapshot in iteration order, exactly one
description write and exactly one value write and nothing else. Hence each
counter is published exactly once per tick (N·M published entry pairs,
2·N·M per-counter sink writes), no write precedes the tick, and a successful
tick leaves no pair partially written. -/
theorem c5_tick_publishes_each_counter_once (snap : Snapshot) (N M : Nat)
    (hN : snap.length = N) (hM : ∀ e ∈ snap, e.2.length = M)
    (hres : ∀ e ∈ snap, ∀ p ∈ e.2, resolvable p = true) :
    (updateRun snap).2 = none
    ∧ (updateRun snap).1 = headerWrite :: pairWrites snap
    ∧ (countersOf snap).length = N * M
    ∧ (pairWrites snap).length = 2 * (N * M) := by
  have hrun := snapRun_resolvable snap hres
  refine ⟨?_, ?_, countersOf_length snap N M hN hM, pairWrites_length snap N M hN hM⟩
  · simp [updateRun, hrun]
  · simp [updateRun, hrun]

/-- Claim C5, witness: a 2-VLAN, 2-counter snapshot is published exactly
once per counter, with 4 entry pairs and 8 per-counter writes. -/
theorem c5_witness :
    (let snap : Snapshot := [("1", [("inUcastPkts", "3"), ("inOctets", "4")]),
                             ("2", [("outUcastPkts", "5"), ("outOctets", "6")])]
     (updateRun snap).2 = none
     ∧ (updateRun snap).1 = headerWrite :: pairWrites snap
     ∧ (countersOf snap).length = 2 * 2
     ∧ (pairWrites snap).length = 2 * (2 * 2)) :=
  c5_tick_publishes_each_counter_once _ 2 2 (by decide) (by decide) (by decide)

/-- Claim C6: the `OID_TRANSLATION` table maps each documented counter name
to its documented suffix, and this revision collapses the broadcast and
multicast pairs onto the same suffixes 5 and 6. -/
theorem c6_oid_table :
    OID_TRANSLATION "inUcastPkts" = some 1
    ∧ OID_TRANSLATION "outUcastPkts" = some 2
    ∧ OID_TRANSLATION "inOctets" = some 3
    ∧ OID_TRANSLATION "outOctets" = some 4
    ∧ OID_TRANSLATION "inBcastPkts" = some 5
    ∧ OID_TRANSLATION "outBcastPkts" = some 6
    ∧ OID_TRANSLATION "inMcastPkts" = some 5
    ∧ OID_TRANSLATION "outMcastPkts" = some 6
    ∧ OID_TRANSLATION "inMcastPkts" = OID_TRANSLATION "inBcastPkts"
    ∧ OID_TRANSLATION "outMcastPkts" = OID_TRANSLATION "outBcastPkts" := by
  decide

/-- Claim C7: when the snapshot contains a counter name `c` with no
`OID_TRANSLATION` entry — preceded, in iteration order, only by resolvable
counters — the tick raises `KeyError c` exactly there: the writes performed
are the banner, the pairs of the fully processed preceding VLANs and the
pairs of the preceding counters of the failing VLAN, and every remaining
write of the tick is abandoned (nothing is silently skipped). The `KeyError`
is a plain `Exception`, so at the Supervisor it takes the generic handler
path: with a positive retry counter the supervisor decrements and re-enters
the running cycle — a bounded restart. -/
theorem c7_lookup_failure_aborts_tick (pre : Snapshot) (vlan : String)
    (good : List (String × String)) (c v : String)
    (restC : List (String × String)) (restS : Snapshot)
    (hpre : ∀ e ∈ pre, ∀ p ∈ e.2, resolvable p = true)
    (hgood : ∀ p ∈ good, resolvable p = true)
    (hc : OID_TRANSLATION c = none) :
    updateRun (pre ++ (vlan, good ++ (c, v) :: restC) :: restS)
      = (headerWrite :: (pairWrites pre ++ vlanPairWrites vlan good),
         some (PyErr.keyError c))
    ∧ (∀ (r : Nat) (evs : List CycleEvent),
        runSupervisor (r + 1) (serveEvent (PyErr.keyError c) :: evs)
          = runSupervisor r evs) := by
  have hvlan := vlanRun_keyError vlan good c v restC hgood hc
  have happ := snapRun_append_resolvable pre
    ((vlan, good ++ (c, v) :: restC) :: restS) hpre
  constructor
  · have htail : snapRun ((vlan, good ++ (c, v) :: restC) :: restS)
        = (vlanPairWrites vlan good, some (PyErr.keyError c)) := by
      simp [snapRun, hvlan]
    rw [htail] at happ
    simp [updateRun, happ]
  · intro r evs
    rfl

/-- Claim C7, witness: the unknown name "bogusCounter" in VLAN "1", after one
resolvable counter, aborts the tick with `KeyError` and leaves only the
banner and the completed pair; the supervisor then restarts with one fewer
retry. -/
theorem c7_witness :
    OID_TRANSLATION "bogusCounter" = none
    ∧ (updateRun ([] ++ ("1", [("inUcastPkts", "5")] ++ ("bogusCounter", "7")
          :: [("outOctets", "9")]) :: [("2", [("inOctets", "1")])])
         = (headerWrite :: (pairWrites []
              ++ vlanPairWrites "1" [("inUcastPkts", "5")]),
            some (PyErr.keyError "bogusCounter"))
       ∧ (∀ (r : Nat) (evs : List CycleEvent),
           runSupervisor (r + 1) (serveEvent (PyErr.keyError "bogusCounter") :: evs)
             = runSupervisor r evs)) :=
  ⟨by decide,
   c7_lookup_failure_aborts_tick [] "1" [("inUcastPkts", "5")] "bogusCounter" "7"
     [("outOctets", "9")] [("2", [("inOctets", "1")])]
     (by decide) (by decide) (by decide)⟩

/-- Claim C8, scenario A: on the snapshot with VLAN "1" carrying
`inUcastPkts = "77934"` and `outUcastPkts = "0"`, one tick raises no
exception and its per-counter published entries are exactly the four claimed
ones in order — the string "inUcastPkts" at `0.1.0.1`, the integer 77934 at
`0.1.1.1`, the string "outUcastPkts" at `0.1.0.2` and the integer 0 at
`0.1.1.2` — preceded only by the constant banner write at `0` that `update`
issues on every tick (claim C10). -/
theorem c8_scenario_a :
    updateRun [("1", [("inUcastPkts", "77934"), ("outUcastPkts", "0")])]
      = ([headerWrite,
          SinkWrite.str "0.1.0.1" "inUcastPkts",
          SinkWrite.int "0.1.1.1" 77934 "inUcastPkts",
          SinkWrite.str "0.1.0.2" "outUcastPkts",
          SinkWrite.int "0.1.1.2" 0 "outUcastPkts"], none) := by
  decide

/-- Claim C9: on an empty per-VLAN map one tick performs zero per-counter
publish writes and raises no error; the only write issued is the
unconditional banner at OID `0`. -/
theorem c9_empty_snapshot :
    updateRun [] = ([headerWrite], none)
    ∧ pairWrites [] = []
    ∧ countersOf [] = [] := by
  exact ⟨rfl, rfl, rfl⟩

/-- Claim C10: every invocation of `update` writes the banner string
"MIB updated by vlanCounters.py" at path `0` as its first sink write, before
any VLAN is visited; consequently a successful tick over N VLANs with M
counters each performs 2·N·M + 1 sink writes in total. -/
theorem c10_header_then_pairs (snap : Snapshot) (N M : Nat)
    (hN : snap.length = N) (hM : ∀ e ∈ snap, e.2.length = M)
    (hres : ∀ e ∈ snap, ∀ p ∈ e.2, resolvable p = true) :
    (∀ s : Snapshot, (updateRun s).1.head? = some headerWrite)
    ∧ headerWrite = SinkWrite.str "0" "MIB updated by vlanCounters.py"
    ∧ (updateRun snap).1.length = 2 * (N * M) + 1 := by
  refine ⟨fun s => rfl, rfl, ?_⟩
  have hrun := snapRun_resolvable snap hres
  have hlen := pairWrites_length snap N M hN hM
  simp [updateRun, hrun, hlen]

/-- Claim C10, witness: a 2-VLAN, 2-counter snapshot yields 2·2·2 + 1 = 9
sink writes, the banner first. -/
theorem c10_witness :
    (let snap : Snapshot := [("10", [("inBcastPkts", "1"), ("inMcastPkts", "2")]),
                             ("20", [("outBcastPkts", "3"), ("outMcastPkts", "4")])]
     (∀ s : Snapshot, (updateRun s).1.head? = some headerWrite)
     ∧ headerWrite = SinkWrite.str "0" "MIB updated by vlanCounters.py"
     ∧ (updateRun snap).1.length = 2 * (2 * 2) + 1) :=
  c10_header_then_pairs _ 2 2 (by decide) (by decide) (by decide)

end VlanCounters
